import Mathlib

/-!
SciFiWeb: verification of the web API and the economy-store contract.

Shallow embedding of the scifiweb repository's Express + Postgres web API
(`src/index.js`, `src/match.js`, `src/player/index.js`, `src/authorize.js`)
and, where the repository ships only a design note and examples for the
SciFiWeb economy language, of the parts of the specification that the web
code does not implement (marked `Modelled from the spec:`).

JavaScript numbers flowing through JSON payloads are modelled as rationals
(`ℚ`); SQL integer ids produced by `parseInt` as `ℤ`; a JSON object field
that may be absent (and hence reach the database driver as `undefined`,
which the `pg` driver sends as SQL `NULL`) as an `Option`.  Database
columns are modelled as nullable — SQL's default in the absence of any
schema file in the repository — so SQL's `NULL`-propagating arithmetic
(`x + NULL = NULL`) is modelled by `nadd` on `Option ℚ`.
-/

namespace SciFiWeb

/-- Model of JavaScript `parseInt` with its default radix: skip leading
whitespace, take an optional sign, then read a `0x`/`0X` hexadecimal prefix
or a run of decimal digits; the result is `none` (JS `NaN`) when no digit
follows.  Trailing non-digit characters are ignored, as in JS. -/
def jsWhitespace (c : Char) : Bool :=
  c = ' ' || c = '\t' || c = '\n' || c = '\r' || c = '\x0b' || c = '\x0c'

/-- Value of one digit character in the given base, `none` if it is not a
digit of that base (bases 10 and 16 are the ones `parseInt`'s default radix
can produce). -/
def digitVal (base : Nat) (c : Char) : Option Nat :=
  let v : Option Nat :=
    if '0' ≤ c ∧ c ≤ '9' then some (c.toNat - '0'.toNat)
    else if 'a' ≤ c ∧ c ≤ 'f' then some (c.toNat - 'a'.toNat + 10)
    else if 'A' ≤ c ∧ c ≤ 'F' then some (c.toNat - 'A'.toNat + 10)
    else none
  match v with
  | some v => if v < base then some v else none
  | none => none

/-- Accumulate the longest run of digits of `base` starting the list. -/
def parseDigitsAux (base : Nat) : List Char → Nat → Nat
  | [], acc => acc
  | c :: cs, acc =>
    match digitVal base c with
    | some v => parseDigitsAux base cs (acc * base + v)
    | none => acc

/-- Longest digit prefix in `base`; `none` when the list does not start
with a digit of that base (JS `NaN`). -/
def parseDigits (base : Nat) : List Char → Option Nat
  | [] => none
  | c :: cs =>
    match digitVal base c with
    | some v => some (parseDigitsAux base cs v)
    | none => none

/-- Magnitude part of `parseInt`: a `0x`/`0X` prefix switches to base 16,
otherwise base 10. -/
def parseUnsigned : List Char → Option Nat
  | '0' :: 'x' :: cs => parseDigits 16 cs
  | '0' :: 'X' :: cs => parseDigits 16 cs
  | cs => parseDigits 10 cs

/-- JavaScript `parseInt(s)` (default radix): `none` models `NaN`. -/
def parseIntJS (s : String) : Option Int :=
  match s.data.dropWhile jsWhitespace with
  | '-' :: cs => (parseUnsigned cs).map (fun n => -(n : Int))
  | '+' :: cs => (parseUnsigned cs).map (fun n => (n : Int))
  | cs => (parseUnsigned cs).map (fun n => (n : Int))

/-- Function `validateOnePlayerId` of `src/index.js` (also used by the
`/scores/all/:player_id` handler): `parseInt` the string, throw
(`none`) on `NaN` or a negative value, otherwise return the integer. -/
def validateOnePlayerId (s : String) : Option Int :=
  match parseIntJS s with
  | none => none
  | some v => if v < 0 then none else some v

/-- The `validatePlayerId` middleware of `src/player/index.js`: rejects
(400) when `parseInt` gives `NaN` or a value `≤ 0`; `true` means it calls
`next()`. -/
def validatePlayerIdAccepts (s : String) : Bool :=
  match parseIntJS s with
  | none => false
  | some v => !decide (v ≤ 0)

/-- One element of the `players` JSON array of `POST /match/new`
(`src/match.js`).  Each field is `Option ℚ` because the ajv schema
(`validateNewMatchData`, `src/match.js` lines 8–28) declares
`properties` without `required`, so any field may be absent; an array
item that is not an object at all (which the `properties` keyword also
accepts) behaves exactly like the all-absent entry, since every property
access on it yields `undefined`. -/
structure PlayerEntry where
  id : Option ℚ
  kills : Option ℚ
  deaths : Option ℚ
deriving DecidableEq

/-- Outcome of `JSON.parse(req.query.players)`: the parse may throw
(malformed JSON or absent parameter), may yield a non-array value, or
yields an array of entries. -/
inductive PlayersParam where
  | parseError
  | nonArray
  | array (items : List PlayerEntry)
deriving DecidableEq

/-- The ajv check of one array item (`src/match.js` lines 12–27): each
property, when present, must be a number with the declared minimum
(`id ≥ -1`, `kills ≥ 0`, `deaths ≥ 0`); an absent property passes. -/
def validEntry (p : PlayerEntry) : Bool :=
  (match p.id with | none => true | some v => decide ((-1 : ℚ) ≤ v)) &&
  (match p.kills with | none => true | some v => decide ((0 : ℚ) ≤ v)) &&
  (match p.deaths with | none => true | some v => decide ((0 : ℚ) ≤ v))

/-- Validator `validateNewMatchData` (`src/match.js` lines 8–28): the parsed value
must be an array of 1 to 4 items, each passing `validEntry`. -/
def validateNewMatchData : PlayersParam → Bool
  | .parseError => false
  | .nonArray => false
  | .array items =>
    decide (1 ≤ items.length) && decide (items.length ≤ 4) && items.all validEntry

/-- The query-string input of `POST /match/new`: `auth`, `players` (raw
JSON) and `winner`; `none` models an absent parameter. -/
structure MatchNewReq where
  auth : Option String
  players : PlayersParam
  winner : Option String
deriving DecidableEq

/-- Evaluation of `parseInt(req.query.winner)`: an absent parameter is `undefined`, and
`parseInt(undefined)` is `NaN` (`none`). -/
def parseWinner : Option String → Option Int
  | none => none
  | some s => parseIntJS s

/-- The validation phase of the `/match/new` handler (`src/match.js`
lines 35–52), before any database interaction: `JSON.parse` failure is
caught with a 400 `Invalid player data`; a value failing
`validateNewMatchData` gives 400 `Invalid player data`; a `winner` that is
`NaN` or negative gives 400 `Invalid winner ID`.  On success it returns
the entry list and the winner id. -/
def bindMatchNew (req : MatchNewReq) : Except String (List PlayerEntry × Int) :=
  match req.players with
  | .parseError => .error "Invalid player data"
  | .nonArray => .error "Invalid player data"
  | .array items =>
    if ¬ validateNewMatchData (.array items) then .error "Invalid player data"
    else
      match parseWinner req.winner with
      | none => .error "Invalid winner ID"
      | some w => if w < 0 then .error "Invalid winner ID" else .ok (items, w)

/-- One row of the `players` table: the four counters touched by
`/match/new`'s `UPDATE players SET ...`.  Columns are nullable (no schema
file exists in the repository, and SQL columns are nullable by default),
so each counter is `Option ℚ` with `none` for SQL `NULL`. -/
structure PlayerRow where
  «matches» : Option ℚ
  wins : Option ℚ
  kills : Option ℚ
  deaths : Option ℚ
deriving DecidableEq

/-- One row of the `player_matches` table as inserted by `/match/new`. -/
structure PMRow where
  player : Option ℚ
  matchId : Nat
  kills : Option ℚ
  deaths : Option ℚ
deriving DecidableEq

/-- The database state visible to the handlers: the `matches` table
(id, winner), the `player_matches` table, the `players` table keyed by id,
and the next serial match id. -/
structure Store where
  «matches» : List (Nat × Int)
  playerMatches : List PMRow
  players : List (ℚ × PlayerRow)
  nextMatchId : Nat
deriving DecidableEq

/-- SQL `NULL`-propagating addition: `x + NULL = NULL`. -/
def nadd : Option ℚ → Option ℚ → Option ℚ
  | some a, some b => some (a + b)
  | _, _ => none

/-- The `UPDATE players SET matches = matches + 1 [, wins = wins + 1],
kills = kills + $1, deaths = deaths + $2` of `src/match.js` lines 74–80,
applied to one row. -/
def updateRow (isWinner : Bool) (k d : Option ℚ) (row : PlayerRow) : PlayerRow :=
  { «matches» := nadd row.«matches» (some 1)
    wins := if isWinner then nadd row.wins (some 1) else row.wins
    kills := nadd row.kills k
    deaths := nadd row.deaths d }

/-- Effect of that `UPDATE … WHERE id = $3` on the `players` table: every
row whose id equals the (possibly `NULL`) parameter is updated; a `NULL`
parameter matches no row, and an id not in the table updates nothing. -/
def updatePlayers (id : Option ℚ) (isWinner : Bool) (k d : Option ℚ)
    (tbl : List (ℚ × PlayerRow)) : List (ℚ × PlayerRow) :=
  tbl.map (fun e => if some e.1 = id then (e.1, updateRow isWinner k d e.2) else e)

/-- A database query issued by the `/match/new` handler, as recorded in
the invocation's query trace. -/
inductive Query where
  | begin
  | insertMatch (winner : Int)
  | insertPlayerMatch (player : Option ℚ) (matchId : Nat) (kills deaths : Option ℚ)
  | updatePlayer (isWinner : Bool) (kills deaths : Option ℚ) (id : Option ℚ)
  | commit
deriving DecidableEq

/-- HTTP response of a handler.  `notAuthorized` is the 403
`Not authorized` written by the `authorize` middleware
(`src/authorize.js`). -/
inductive Response where
  | ok (body : String)
  | badRequest (body : String)
  | serverError (body : String)
  | notAuthorized
deriving DecidableEq

/-- Result of one `/match/new` invocation: the response, the durable
store afterwards (only a committed transaction changes it), the queries
issued, and whether a pool connection was taken. -/
structure MatchNewResult where
  response : Response
  store : Store
  queries : List Query
  connected : Bool
deriving DecidableEq

/-- Queries issued for one player entry of the `/match/new` loop
(`src/match.js` lines 62–81): an entry with `id === -1` is skipped
(no queries); any other entry gets its `player_matches` insert and its
`players` update. -/
def entryQueries (matchId : Nat) (winner : Int) (p : PlayerEntry) : List Query :=
  if p.id = some ((-1 : ℚ)) then []
  else [Query.insertPlayerMatch p.id matchId p.kills p.deaths,
        Query.updatePlayer (decide (p.id = some ((winner : Int) : ℚ))) p.kills p.deaths p.id]

/-- Effect of one (non-failing) player-loop iteration on the pending
transaction state. -/
def applyEntry (matchId : Nat) (winner : Int) (s : Store) (p : PlayerEntry) : Store :=
  if p.id = some ((-1 : ℚ)) then s
  else
    { s with
      playerMatches := s.playerMatches ++ [⟨p.id, matchId, p.kills, p.deaths⟩]
      players := updatePlayers p.id (decide (p.id = some ((winner : Int) : ℚ)))
        p.kills p.deaths s.players }

/-- The player loop of `/match/new` with failure injection: `fails i`
says whether the `i`-th query issued in this invocation errors.  `idx` is
the index of the next query; on a failure the accumulated trace (with the
failing query included) is returned in the error. -/
def runLoop (fails : Nat → Bool) (matchId : Nat) (winner : Int) :
    List PlayerEntry → Nat → Store → List Query →
    Except (List Query) (Store × List Query × Nat)
  | [], _idx, s, acc => .ok (s, acc, _idx)
  | p :: ps, idx, s, acc =>
    if p.id = some ((-1 : ℚ)) then runLoop fails matchId winner ps idx s acc
    else
      let q1 := Query.insertPlayerMatch p.id matchId p.kills p.deaths
      if fails idx then .error (acc ++ [q1])
      else
        let q2 := Query.updatePlayer (decide (p.id = some ((winner : Int) : ℚ)))
          p.kills p.deaths p.id
        if fails (idx + 1) then .error (acc ++ [q1, q2])
        else
          runLoop fails matchId winner ps (idx + 2)
            (applyEntry matchId winner s p) (acc ++ [q1, q2])

/-- The `/match/new` handler body (`src/match.js` lines 34–92), after the
`authorize` middleware.  Validation runs before `pool.connect()`; on
success a connection is taken and the queries `BEGIN`, `INSERT INTO
matches`, the per-player pairs, and `COMMIT` are issued in order.  Any
query error is caught: the response is a 500 `Match creation failed` and,
the transaction never being committed, the durable store is unchanged. -/
def runMatchNew (req : MatchNewReq) (store : Store) (fails : Nat → Bool) :
    MatchNewResult :=
  match bindMatchNew req with
  | .error msg => ⟨.badRequest msg, store, [], false⟩
  | .ok (players, winner) =>
    if fails 0 then ⟨.serverError "Match creation failed", store, [Query.begin], true⟩
    else if fails 1 then
      ⟨.serverError "Match creation failed", store,
        [Query.begin, Query.insertMatch winner], true⟩
    else
      let matchId := store.nextMatchId
      let pending : Store :=
        { store with
          «matches» := store.«matches» ++ [(matchId, winner)]
          nextMatchId := matchId + 1 }
      match runLoop fails matchId winner players 2 pending
          [Query.begin, Query.insertMatch winner] with
      | .error trace => ⟨.serverError "Match creation failed", store, trace, true⟩
      | .ok (pending', trace, idx) =>
        if fails idx then
          ⟨.serverError "Match creation failed", store, trace ++ [Query.commit], true⟩
        else
          ⟨.ok ("Match ID: " ++ toString matchId), pending',
            trace ++ [Query.commit], true⟩

/-- Route `POST /match/new` as wired: the `authorize` middleware
(`src/authorize.js`) runs first and stops the request with a 403 before
the handler when `req.query.auth !== 'secret'`. -/
def matchNewEndpoint (req : MatchNewReq) (store : Store) (fails : Nat → Bool) :
    MatchNewResult :=
  if req.auth = some "secret" then runMatchNew req store fails
  else ⟨.notAuthorized, store, [], false⟩

/-- The query-string input of the player-creation route
(`src/player/index.js` lines 33–47). -/
structure PlayerNewReq where
  auth : Option String
  name : Option String
  nickname : Option String
deriving DecidableEq

/-- The player-creation handler body: it issues exactly one
`INSERT INTO players (name, nickname)`; `newId` is the serial id the
database returns, `fails` whether that insert errors (caught with a 500
`Error creating player`).  The second component is the trace of issued
inserts. -/
def runPlayerNew (req : PlayerNewReq) (newId : Nat) (fails : Bool) :
    Response × List (Option String × Option String) :=
  ((if fails then Response.serverError "Error creating player"
    else Response.ok ("Player ID: " ++ toString newId)),
   [(req.name, req.nickname)])

/-- The player-creation route as routed: the `authorize` middleware runs
first and stops the request with a 403 (no insert issued) when
`req.query.auth !== 'secret'`. -/
def playerNewEndpoint (req : PlayerNewReq) (newId : Nat) (fails : Bool) :
    Response × List (Option String × Option String) :=
  if req.auth = some "secret" then runPlayerNew req newId fails
  else (Response.notAuthorized, [])

/-- Body built by `GET /player/:player_id/matches` (`src/index.js` lines
95–102) from the query's `match` column values: `no matches found` when
the result is empty, otherwise the ids are folded into
`"m1,m2,...,mn,"` by `reduce((a, b) => a + b + ',', '')` and the last
character is chopped off with `substr(0, length - 1)`. -/
def matchListBody (rows : List Nat) : String :=
  if rows.length = 0 then "no matches found"
  else
    let matchList := rows.foldl (fun a b => a ++ toString b ++ ",") ""
    matchList.take (matchList.length - 1)

/-- The comma-separated concatenation with no trailing comma, the shape
the body is claimed to have. -/
def commaJoin : List String → String
  | [] => ""
  | [x] => x
  | x :: y :: xs => x ++ "," ++ commaJoin (y :: xs)

/-- JavaScript number results of the win-percent division: a finite
value, or the IEEE special values JS division can produce. -/
inductive JsNum where
  | num (q : ℚ)
  | nan
  | inf
  | negInf
deriving DecidableEq

/-- JavaScript division `a / b`: `0 / 0` is `NaN`, `x / 0` with `x ≠ 0`
is a signed infinity, and otherwise the exact quotient (floating-point
rounding is irrelevant to the claims below). -/
def jsDiv (a b : ℚ) : JsNum :=
  if b = 0 then
    if a = 0 then .nan else if 0 < a then .inf else .negInf
  else .num (a / b)

/-- The fields written by `GET /scores/all/:player_id` (`src/index.js`
lines 125–145): it writes `matches`, `wins`, `losses` and
`win percent: ${wins / totalMatches}` and ends the response with the
default 200 status. -/
structure ScoresBody where
  totalMatches : Nat
  wins : Int
  losses : Int
  winPercent : JsNum
deriving DecidableEq

/-- The `/scores/all/:player_id` handler: validate the id with
`validateOnePlayerId` (`none` models the `invalid player id` early
return), then compute the summary from the queried `winner` column
values; the response is always a success once the id validates — no
branch of the handler fails on `totalMatches = 0`. -/
def scoresAll (playerIdStr : String) (rows : List Int) : Option ScoresBody :=
  match validateOnePlayerId playerIdStr with
  | none => none
  | some player =>
    let totalMatches := rows.length
    let wins := rows.foldl (fun total winner => total + (if winner = player then 1 else 0)) (0 : Int)
    some
      { totalMatches := totalMatches
        wins := wins
        losses := (totalMatches : Int) - wins
        winPercent := jsDiv (wins : ℚ) (totalMatches : ℚ) }

/-- Modelled from the spec: the Expression Evaluator's division (§4.3,
"division by zero is a fatal `EvaluationError`").  The repository has no
executable evaluator (only example programs and a design note), so the
rule is taken from the specification's words. -/
inductive EvalError where
  | evaluationError
deriving DecidableEq

/-- Modelled from the spec: division in the Expression Evaluator —
division by zero is a fatal `EvaluationError`, any other division yields
the exact quotient. -/
def evalDiv (a b : ℚ) : Except EvalError ℚ :=
  if b = 0 then .error .evaluationError else .ok (a / b)

/-- Modelled from the spec: the Economy Store contract (§4.6) — per-owner,
per-collectable-type balances.  The repository contains no store
implementation, so the state is the spec's abstract balance map. -/
structure EconStore where
  balances : String × String → ℚ

/-- Modelled from the spec: `getBalance(owner, type)` of the Economy
Store contract (§4.6). -/
def getBalance (s : EconStore) (owner ctype : String) : ℚ :=
  s.balances (owner, ctype)

/-- Error of a failed Economy Store debit. -/
inductive DebitError where
  | insufficientBalance
deriving DecidableEq

/-- Modelled from the spec: `debit(owner, type, amount)` of the Economy
Store contract (§4.6) — an atomic operation that fails with
`InsufficientBalanceError` when `amount > balance` (a balance may never
go below zero) and otherwise subtracts `amount` from that one balance.
The pair returned is the error (if any) together with the store state
after the call. -/
def debit (s : EconStore) (owner ctype : String) (amount : ℚ) :
    Option DebitError × EconStore :=
  if amount > getBalance s owner ctype then (some .insufficientBalance, s)
  else
    (none,
     { balances := fun k =>
         if k = (owner, ctype) then s.balances k - amount else s.balances k })

/-- A `players`-table counter holds a non-negative number (in particular
it is not SQL `NULL`). -/
def counterNN : Option ℚ → Prop
  | none => False
  | some v => 0 ≤ v

instance (o : Option ℚ) : Decidable (counterNN o) :=
  match o with
  | none => isFalse (fun h => h)
  | some v => inferInstanceAs (Decidable (0 ≤ v))

/-- All four counters of a `players` row are non-negative numbers. -/
def rowNonNeg (r : PlayerRow) : Prop :=
  counterNN r.«matches» ∧ counterNN r.wins ∧ counterNN r.kills ∧ counterNN r.deaths

instance (r : PlayerRow) : Decidable (rowNonNeg r) :=
  inferInstanceAs (Decidable (_ ∧ _ ∧ _ ∧ _))

/-- A counter did not decrease: a numeric old value needs a numeric new
value at least as large (an old `NULL` puts no constraint). -/
def counterLe : Option ℚ → Option ℚ → Prop
  | some a, some b => a ≤ b
  | some _, none => False
  | none, _ => True

instance (a b : Option ℚ) : Decidable (counterLe a b) :=
  match a, b with
  | some x, some y => inferInstanceAs (Decidable (x ≤ y))
  | some _, none => isFalse (fun h => h)
  | none, _ => isTrue trivial

/-- Every counter of the row is non-decreasing. -/
def rowLe (a b : PlayerRow) : Prop :=
  counterLe a.«matches» b.«matches» ∧ counterLe a.wins b.wins ∧
  counterLe a.kills b.kills ∧ counterLe a.deaths b.deaths

instance (a b : PlayerRow) : Decidable (rowLe a b) :=
  inferInstanceAs (Decidable (_ ∧ _ ∧ _ ∧ _))

/-- A player entry whose `kills` and `deaths` are present, validated
non-negative numbers. -/
def goodEntry (p : PlayerEntry) : Prop :=
  (∃ k, p.kills = some k ∧ 0 ≤ k) ∧ (∃ d, p.deaths = some d ∧ 0 ≤ d)

/-- The per-row relation threaded through the player loop: keys agree,
the current row's counters are non-negative numbers, and no counter went
below its original value. -/
def rowInv (old cur : ℚ × PlayerRow) : Prop :=
  old.1 = cur.1 ∧ rowNonNeg cur.2 ∧ rowLe old.2 cur.2

/-- Rows the loop appends to `player_matches` for one entry. -/
def entryRows (matchId : Nat) (p : PlayerEntry) : List PMRow :=
  if p.id = some ((-1 : ℚ)) then []
  else [⟨p.id, matchId, p.kills, p.deaths⟩]

/-- Tail string the JS `reduce` builds: every id followed by a comma. -/
def commaTail : List Nat → String
  | [] => ""
  | n :: ns => toString n ++ "," ++ commaTail ns

/-- A two-player `/match/new` request (players 1 and 2, winner 1, valid
data) used to exercise a mid-set failure. -/
def twoPlayerReq : MatchNewReq :=
  ⟨some "secret",
   PlayersParam.array [⟨some 1, some 2, some 3⟩, ⟨some 2, some 0, some 0⟩],
   some "1"⟩

/-- A store holding players 1 and 2 with all counters zero. -/
def twoPlayerStore : Store :=
  ⟨[], [],
   [(1, ⟨some 0, some 0, some 0, some 0⟩), (2, ⟨some 0, some 0, some 0, some 0⟩)],
   0⟩

/-- An accepted `/match/new` request whose single entry omits `kills`
(the ajv schema does not require it). -/
def noKillsReq : MatchNewReq :=
  ⟨some "secret", PlayersParam.array [⟨some 5, none, some 0⟩], some "5"⟩

/-- A store holding player 5 with all counters zero. -/
def noKillsStore : Store :=
  ⟨[], [], [(5, ⟨some 0, some 0, some 0, some 0⟩)], 0⟩

theorem counterNN_nadd {a b : Option ℚ} (ha : counterNN a) (hb : counterNN b) :
    counterNN (nadd a b) := by
  cases a with
  | none => exact ha.elim
  | some x =>
    cases b with
    | none => exact hb.elim
    | some y => exact add_nonneg ha hb

theorem counterLe_refl (a : Option ℚ) : counterLe a a := by
  cases a with
  | none => trivial
  | some x => exact le_refl x

theorem counterLe_nadd {b : Option ℚ} (a : Option ℚ) (hb : counterNN b) :
    counterLe a (nadd a b) := by
  cases a with
  | none => trivial
  | some x =>
    cases b with
    | none => exact hb.elim
    | some y => exact le_add_of_nonneg_right hb

theorem counterLe_trans {a b c : Option ℚ} (hab : counterLe a b)
    (hbc : counterLe b c) : counterLe a c := by
  cases a with
  | none => trivial
  | some x =>
    cases b with
    | none => exact hab.elim
    | some y =>
      cases c with
      | none => exact hbc.elim
      | some z => exact le_trans hab hbc

theorem rowLe_refl (r : PlayerRow) : rowLe r r :=
  ⟨counterLe_refl _, counterLe_refl _, counterLe_refl _, counterLe_refl _⟩

theorem rowLe_trans {a b c : PlayerRow} (hab : rowLe a b) (hbc : rowLe b c) :
    rowLe a c :=
  ⟨counterLe_trans hab.1 hbc.1, counterLe_trans hab.2.1 hbc.2.1,
   counterLe_trans hab.2.2.1 hbc.2.2.1, counterLe_trans hab.2.2.2 hbc.2.2.2⟩

theorem rowNonNeg_updateRow {iw : Bool} {k d : Option ℚ} {r : PlayerRow}
    (hr : rowNonNeg r) (hk : counterNN k) (hd : counterNN d) :
    rowNonNeg (updateRow iw k d r) := by
  refine ⟨counterNN_nadd hr.1 (by norm_num [counterNN]), ?_,
    counterNN_nadd hr.2.2.1 hk, counterNN_nadd hr.2.2.2 hd⟩
  cases iw with
  | false => exact hr.2.1
  | true => exact counterNN_nadd hr.2.1 (by norm_num [counterNN])

theorem rowLe_updateRow {iw : Bool} {k d : Option ℚ} {r : PlayerRow}
    (hk : counterNN k) (hd : counterNN d) :
    rowLe r (updateRow iw k d r) := by
  refine ⟨counterLe_nadd _ (by norm_num [counterNN]), ?_,
    counterLe_nadd _ hk, counterLe_nadd _ hd⟩
  cases iw with
  | false => exact counterLe_refl _
  | true => exact counterLe_nadd _ (by norm_num [counterNN])

theorem updatePlayers_inv {id : Option ℚ} {iw : Bool} {k d : Option ℚ}
    (hk : counterNN k) (hd : counterNN d)
    {orig tbl : List (ℚ × PlayerRow)} (h : List.Forall₂ rowInv orig tbl) :
    List.Forall₂ rowInv orig (updatePlayers id iw k d tbl) := by
  rw [updatePlayers, List.forall₂_map_right_iff]
  refine h.imp (fun old cur hoc => ?_)
  by_cases hc : some cur.1 = id
  · rw [if_pos hc]
    exact ⟨hoc.1, rowNonNeg_updateRow hoc.2.1 hk hd,
      rowLe_trans hoc.2.2 (rowLe_updateRow hk hd)⟩
  · rw [if_neg hc]; exact hoc

theorem applyEntry_inv {matchId : Nat} {winner : Int} {p : PlayerEntry}
    (hp : goodEntry p) {orig : List (ℚ × PlayerRow)} {s : Store}
    (h : List.Forall₂ rowInv orig s.players) :
    List.Forall₂ rowInv orig ((applyEntry matchId winner s p).players) := by
  obtain ⟨⟨k, hk, hk0⟩, ⟨d, hd, hd0⟩⟩ := hp
  rw [applyEntry]
  by_cases hc : p.id = some ((-1 : ℚ))
  · rw [if_pos hc]; exact h
  · rw [if_neg hc]
    exact updatePlayers_inv (by rw [hk]; exact hk0) (by rw [hd]; exact hd0) h

theorem foldl_applyEntry_inv {matchId : Nat} {winner : Int}
    {ps : List PlayerEntry} (hps : ∀ p ∈ ps, goodEntry p) :
    ∀ {orig : List (ℚ × PlayerRow)} {s : Store},
      List.Forall₂ rowInv orig s.players →
      List.Forall₂ rowInv orig ((ps.foldl (applyEntry matchId winner) s).players) := by
  induction ps with
  | nil => intro orig s h; exact h
  | cons p ps ih =>
    intro orig s h
    exact ih (fun q hq => hps q (List.mem_cons_of_mem p hq))
      (applyEntry_inv (hps p (List.mem_cons_self p ps)) h)

theorem applyEntry_playerMatches (matchId : Nat) (winner : Int) (s : Store)
    (p : PlayerEntry) :
    (applyEntry matchId winner s p).playerMatches =
      s.playerMatches ++ entryRows matchId p := by
  rw [applyEntry, entryRows]
  by_cases hc : p.id = some ((-1 : ℚ))
  · rw [if_pos hc, if_pos hc, List.append_nil]
  · rw [if_neg hc, if_neg hc]

theorem applyEntry_matchesTable (matchId : Nat) (winner : Int) (s : Store)
    (p : PlayerEntry) :
    (applyEntry matchId winner s p).«matches» = s.«matches» := by
  rw [applyEntry]
  by_cases hc : p.id = some ((-1 : ℚ))
  · rw [if_pos hc]
  · rw [if_neg hc]

theorem foldl_applyEntry_playerMatches (matchId : Nat) (winner : Int) :
    ∀ (ps : List PlayerEntry) (s : Store),
    (ps.foldl (applyEntry matchId winner) s).playerMatches =
      s.playerMatches ++ ps.flatMap (entryRows matchId)
  | [], s => by simp
  | p :: ps, s => by
    rw [List.foldl_cons, foldl_applyEntry_playerMatches matchId winner ps,
      applyEntry_playerMatches, List.flatMap_cons, List.append_assoc]

theorem foldl_applyEntry_matchesTable (matchId : Nat) (winner : Int) :
    ∀ (ps : List PlayerEntry) (s : Store),
    (ps.foldl (applyEntry matchId winner) s).«matches» = s.«matches»
  | [], _ => rfl
  | p :: ps, s => by
    rw [List.foldl_cons, foldl_applyEntry_matchesTable matchId winner ps,
      applyEntry_matchesTable]

theorem runLoop_noFail (matchId : Nat) (winner : Int) :
    ∀ (ps : List PlayerEntry) (idx : Nat) (s : Store) (acc : List Query),
    runLoop (fun _ => false) matchId winner ps idx s acc =
      .ok (ps.foldl (applyEntry matchId winner) s,
           acc ++ ps.flatMap (entryQueries matchId winner),
           idx + 2 * ps.countP (fun p => !decide (p.id = some ((-1 : ℚ)))))
  | [], idx, s, acc => by simp [runLoop]
  | p :: ps, idx, s, acc => by
    by_cases hc : p.id = some ((-1 : ℚ))
    · rw [runLoop, if_pos hc, runLoop_noFail matchId winner ps idx s acc]
      simp [entryQueries, applyEntry, hc, List.countP_cons]
    · rw [runLoop, if_neg hc]
      show runLoop (fun _ => false) matchId winner ps (idx + 2)
          (applyEntry matchId winner s p) _ = _
      rw [runLoop_noFail matchId winner ps (idx + 2) (applyEntry matchId winner s p)]
      refine congrArg Except.ok ?_
      refine congrArg (Prod.mk _) ?_
      refine congrArg₂ Prod.mk ?_ ?_
      · simp [entryQueries, hc]
      · rw [List.countP_cons]
        simp only [decide_eq_false hc, Bool.not_false, if_pos]
        omega

/-- Inversion of a successful binding: the request's `players` parameter
parsed to exactly the bound array, the array passed the ajv check, and
the winner is a non-negative parsed integer. -/
theorem bindMatchNew_ok {req : MatchNewReq} {players : List PlayerEntry}
    {winner : Int} (h : bindMatchNew req = .ok (players, winner)) :
    req.players = .array players ∧
    validateNewMatchData (.array players) = true ∧
    parseWinner req.winner = some winner ∧ 0 ≤ winner := by
  cases hp : req.players with
  | parseError => simp only [bindMatchNew, hp] at h; exact Except.noConfusion h
  | nonArray => simp only [bindMatchNew, hp] at h; exact Except.noConfusion h
  | array items =>
    simp only [bindMatchNew, hp] at h
    by_cases hv : validateNewMatchData (.array items)
    · rw [if_neg (by simp [hv])] at h
      cases hw : parseWinner req.winner with
      | none => rw [hw] at h; exact Except.noConfusion h
      | some w =>
        rw [hw] at h
        simp only [] at h
        by_cases hneg : w < 0
        · rw [if_pos hneg] at h; exact Except.noConfusion h
        · rw [if_neg hneg] at h
          obtain ⟨h1, h2⟩ : items = players ∧ w = winner := by
            have h' := h; simp at h'; exact h'
          subst h1; subst h2
          exact ⟨rfl, hv, rfl, le_of_not_lt hneg⟩
    · rw [if_pos (by simp [hv])] at h; exact Except.noConfusion h

/-- Entries bound by a successful `bindMatchNew` pass the ajv minimums:
a present `kills` or `deaths` is a non-negative number. -/
theorem bindMatchNew_ok_entries {req : MatchNewReq} {players : List PlayerEntry}
    {winner : Int} (h : bindMatchNew req = .ok (players, winner)) :
    ∀ p ∈ players, (∀ k, p.kills = some k → 0 ≤ k) ∧
      (∀ d, p.deaths = some d → 0 ≤ d) := by
  obtain ⟨-, hv, -, -⟩ := bindMatchNew_ok h
  intro p hp
  simp only [validateNewMatchData, Bool.and_eq_true, List.all_eq_true] at hv
  have := hv.2 p hp
  simp only [validEntry, Bool.and_eq_true] at this
  constructor
  · intro k hk; have h2 := this.1.2; rw [hk] at h2; exact of_decide_eq_true h2
  · intro d hd; have h2 := this.2; rw [hd] at h2; exact of_decide_eq_true h2

/-- In every branch of `runMatchNew` that is not a committed success, the
durable store is returned unchanged. -/
theorem matchNew_store_cases (req : MatchNewReq) (store : Store)
    (fails : Nat → Bool) :
    (runMatchNew req store fails).store = store ∨
    ∃ b, (runMatchNew req store fails).response = Response.ok b := by
  rw [runMatchNew]
  split
  · exact Or.inl rfl
  · split
    · exact Or.inl rfl
    · split
      · exact Or.inl rfl
      · dsimp only
        split
        · exact Or.inl rfl
        · split
          · exact Or.inl rfl
          · exact Or.inr ⟨_, rfl⟩

/-- Closed form of a failure-free `/match/new` run: the match row is
inserted, every player entry is folded through `applyEntry`, the trace is
`BEGIN`, the match insert, the per-entry queries and `COMMIT`, and the
response reports the new match id. -/
theorem runMatchNew_noFail_eq (req : MatchNewReq) (store : Store)
    (players : List PlayerEntry) (winner : Int)
    (hbind : bindMatchNew req = .ok (players, winner)) :
    runMatchNew req store (fun _ => false) =
      ⟨Response.ok ("Match ID: " ++ toString store.nextMatchId),
       players.foldl (applyEntry store.nextMatchId winner)
         { store with
           «matches» := store.«matches» ++ [(store.nextMatchId, winner)]
           nextMatchId := store.nextMatchId + 1 },
       Query.begin :: Query.insertMatch winner ::
         (players.flatMap (entryQueries store.nextMatchId winner) ++ [Query.commit]),
       true⟩ := by
  rw [runMatchNew, hbind]
  simp only [Bool.false_eq_true, if_false]
  rw [runLoop_noFail]
  simp

/-- C1: every invocation of `POST /match/new` or the player-creation
route whose caller fails the authorize check (auth query parameter not
equal to `secret`) is rejected with 403 Not authorized, the store is
untouched, no pool connection is taken, and no database query of any
kind is issued for that invocation. -/
theorem authorize_failure_rejects_with_no_queries :
    (∀ (req : MatchNewReq) (store : Store) (fails : Nat → Bool),
      req.auth ≠ some "secret" →
      matchNewEndpoint req store fails =
        ⟨Response.notAuthorized, store, [], false⟩) ∧
    (∀ (req : PlayerNewReq) (newId : Nat) (fails : Bool),
      req.auth ≠ some "secret" →
      playerNewEndpoint req newId fails = (Response.notAuthorized, [])) := by
  constructor
  · intro req store fails h
    rw [matchNewEndpoint, if_neg h]
  · intro req newId fails h
    rw [playerNewEndpoint, if_neg h]

/-- Witness for C1 at concrete unauthorized requests to both routes. -/
theorem authorize_failure_rejects_with_no_queries_witness :
    matchNewEndpoint ⟨some "hunter2", PlayersParam.parseError, none⟩
        ⟨[], [], [], 0⟩ (fun _ => false) =
      ⟨Response.notAuthorized, ⟨[], [], [], 0⟩, [], false⟩ ∧
    playerNewEndpoint ⟨none, some "alice", some "al"⟩ 7 false =
      (Response.notAuthorized, []) :=
  ⟨authorize_failure_rejects_with_no_queries.1 _ _ _ (by decide),
   authorize_failure_rejects_with_no_queries.2 _ _ _ (by decide)⟩

/-- C4 counterexample: a request that both fails the authorize check and
has invalid parameters (a `players` value that does not even parse) is
answered with the 403 authorization failure, not with the 400
parameter-binding failure the claim predicts — `authorize` runs before
binding, not after. -/
theorem bind_before_authorize_counterexample :
    bindMatchNew ⟨some "letmein", PlayersParam.parseError, none⟩ =
      .error "Invalid player data" ∧
    (matchNewEndpoint ⟨some "letmein", PlayersParam.parseError, none⟩
        ⟨[], [], [], 0⟩ (fun _ => false)).response = Response.notAuthorized ∧
    ∀ m, (matchNewEndpoint ⟨some "letmein", PlayersParam.parseError, none⟩
        ⟨[], [], [], 0⟩ (fun _ => false)).response ≠ Response.badRequest m := by
  refine ⟨rfl, rfl, fun m h => ?_⟩
  exact Response.noConfusion h

/-- C4 (amended): the steps run in the order Authorize then Bind — the
`authorize` middleware is evaluated before parameter binding, so an
invocation with both an unauthorized caller and invalid parameters
reports the authorization failure (403), not the binding failure. -/
theorem authorize_runs_before_bind (req : MatchNewReq) (store : Store)
    (fails : Nat → Bool) (msg : String)
    (hauth : req.auth ≠ some "secret") (_hbind : bindMatchNew req = .error msg) :
    (matchNewEndpoint req store fails).response = Response.notAuthorized := by
  rw [matchNewEndpoint, if_neg hauth]

/-- Witness for the amended C4 at a concrete doubly-invalid request. -/
theorem authorize_runs_before_bind_witness :
    (matchNewEndpoint ⟨some "letmein", PlayersParam.nonArray, none⟩
        ⟨[], [], [], 0⟩ (fun _ => false)).response = Response.notAuthorized :=
  authorize_runs_before_bind _ _ _ "Invalid player data" (by decide) rfl

/-- C5: an invocation of `/match/new` whose arguments fail parameter
validation aborts with the 400 binding error and zero side effects: no
pool connection is taken, no query is issued, and the store is
unchanged. -/
theorem bind_failure_zero_side_effects (req : MatchNewReq) (store : Store)
    (fails : Nat → Bool) (msg : String) (h : bindMatchNew req = .error msg) :
    runMatchNew req store fails = ⟨Response.badRequest msg, store, [], false⟩ := by
  rw [runMatchNew, h]

/-- Witness for C5: an empty `players` array violates the schema's
`minItems: 1` and is rejected with no connection and no queries. -/
theorem bind_failure_zero_side_effects_witness :
    runMatchNew ⟨some "secret", PlayersParam.array [], some "1"⟩ ⟨[], [], [], 0⟩
        (fun _ => false) =
      ⟨Response.badRequest "Invalid player data", ⟨[], [], [], 0⟩, [], false⟩ :=
  bind_failure_zero_side_effects _ _ _ _ rfl

/-- C2 counterexample: in a two-player invocation whose fifth query (the
second player's `player_matches` insert) fails, the trace shows player 1's
insert and update were issued before the failure, yet the durable store
afterwards equals the store before the invocation — the single wrapping
`BEGIN`/`COMMIT` transaction was never committed, so the side effects
applied for earlier players in the set do NOT persist. -/
theorem independent_transactions_counterexample :
    (runMatchNew twoPlayerReq twoPlayerStore (fun i => decide (i = 4))).queries =
      [Query.begin, Query.insertMatch 1,
       Query.insertPlayerMatch (some 1) 0 (some 2) (some 3),
       Query.updatePlayer true (some 2) (some 3) (some 1),
       Query.insertPlayerMatch (some 2) 0 (some 0) (some 0)] ∧
    (runMatchNew twoPlayerReq twoPlayerStore (fun i => decide (i = 4))).response =
      Response.serverError "Match creation failed" ∧
    (runMatchNew twoPlayerReq twoPlayerStore (fun i => decide (i = 4))).store =
      twoPlayerStore := by decide

/-- C2 (amended): the players of one `/match/new` invocation are recorded
inside a single `BEGIN`/`COMMIT` transaction, so on any mid-set failure
the transaction is never committed and no side effect of that invocation
persists — the durable store is unchanged and partial application across
the set is not possible. -/
theorem invocation_failure_means_no_commit (req : MatchNewReq) (store : Store)
    (fails : Nat → Bool) (msg : String)
    (h : (runMatchNew req store fails).response = Response.serverError msg) :
    (runMatchNew req store fails).store = store := by
  rcases matchNew_store_cases req store fails with h' | ⟨b, hb⟩
  · exact h'
  · rw [h] at hb
    exact Response.noConfusion hb

/-- Witness for the amended C2 at a concrete failing invocation. -/
theorem invocation_failure_means_no_commit_witness :
    (runMatchNew twoPlayerReq twoPlayerStore (fun i => decide (i = 2))).store =
      twoPlayerStore :=
  invocation_failure_means_no_commit _ _ _ "Match creation failed" (by decide)

/-- C3 counterexample: requesting the score summary of a (valid) player
with zero recorded matches responds successfully — the handler returns a
body with `win percent: NaN` (JS `0 / 0`), it does not fail with an
error. -/
theorem div_by_zero_fatal_counterexample :
    scoresAll "7" [] = some ⟨0, 0, 0, JsNum.nan⟩ := by decide

/-- C3 (amended): in the SciFiWeb Expression Evaluator (modelled from the
spec, no evaluator exists in the repository) every division by zero is a
fatal `EvaluationError`; the web API's score-summary handler, however, is
outside that rule: for a player with zero recorded matches it responds
successfully with `win percent: NaN`, because JS `0 / 0` is `NaN`, not an
error. -/
theorem div_by_zero_fatal_amended :
    (∀ a : ℚ, evalDiv a 0 = Except.error EvalError.evaluationError) ∧
    (∀ s p, validateOnePlayerId s = some p →
      scoresAll s [] = some ⟨0, 0, 0, JsNum.nan⟩) := by
  constructor
  · intro a
    rw [evalDiv, if_pos rfl]
  · intro s p h
    rw [scoresAll, h]
    simp only []
    simp [jsDiv]

/-- Witness for the amended C3 at concrete inputs. -/
theorem div_by_zero_fatal_amended_witness :
    evalDiv 5 0 = Except.error EvalError.evaluationError ∧
    scoresAll "3" [] = some ⟨0, 0, 0, JsNum.nan⟩ :=
  ⟨div_by_zero_fatal_amended.1 5,
   div_by_zero_fatal_amended.2 "3" 3 (by decide)⟩

/-- C6 counterexample: the ajv schema does not require the `kills` field,
so a request whose single entry omits it is accepted (the invocation
commits and responds with the match id), and the `UPDATE players SET
kills = kills + NULL` leaves player 5's `kills` counter SQL `NULL` — not
a non-negative number, and strictly "less" than its previous value 0 in
the sense that a numeric counter became non-numeric. -/
theorem nonneg_balances_counterexample :
    (runMatchNew noKillsReq noKillsStore (fun _ => false)).response =
      Response.ok "Match ID: 0" ∧
    (runMatchNew noKillsReq noKillsStore (fun _ => false)).store.players =
      [(5, ⟨some 1, some 1, none, some 0⟩)] ∧
    ¬ rowNonNeg ⟨some 1, some 1, none, some 0⟩ ∧
    ¬ counterLe (some (0 : ℚ)) none := by
  refine ⟨?_, ?_, by decide, by decide⟩
  · rfl
  · have h : (runMatchNew noKillsReq noKillsStore (fun _ => false)).store.players =
        [(5, ⟨nadd (some 0) (some 1), nadd (some 0) (some 1),
              nadd (some 0) none, nadd (some 0) (some 0)⟩)] := rfl
    rw [h]
    norm_num [nadd]

/-- C6 (amended): for every accepted `/match/new` invocation in which
every player entry supplies both `kills` and `deaths` (the validated
non-negative increments), and every store state whose counters are all
non-negative, the state after the failure-free run keeps every player's
key, keeps all counters non-negative, and leaves every counter
non-decreasing.  Entries may omit `kills`/`deaths` (the schema has no
`required`), and such an accepted entry sets the counter to SQL `NULL`
instead. -/
theorem nonneg_balances_preserved (req : MatchNewReq) (store : Store)
    (players : List PlayerEntry) (winner : Int)
    (hbind : bindMatchNew req = .ok (players, winner))
    (hpresent : ∀ p ∈ players, p.kills ≠ none ∧ p.deaths ≠ none)
    (hstore : ∀ e ∈ store.players, rowNonNeg e.2) :
    List.Forall₂ rowInv store.players
      ((runMatchNew req store (fun _ => false)).store.players) := by
  rw [runMatchNew_noFail_eq req store players winner hbind]
  refine foldl_applyEntry_inv ?_ ?_
  · intro p hp
    obtain ⟨hk, hd⟩ := hpresent p hp
    obtain ⟨hk', hd'⟩ := bindMatchNew_ok_entries hbind p hp
    cases hkk : p.kills with
    | none => exact absurd hkk hk
    | some k =>
      cases hdd : p.deaths with
      | none => exact absurd hdd hd
      | some d => exact ⟨⟨k, hkk, hk' k hkk⟩, ⟨d, hdd, hd' d hdd⟩⟩
  · exact List.forall₂_same.2 (fun e he => ⟨rfl, hstore e he, rowLe_refl _⟩)

/-- Witness for the amended C6: one fully-populated entry for player 1
with two kills and three deaths, against a store with all counters
zero. -/
theorem nonneg_balances_preserved_witness :
    List.Forall₂ rowInv
      [((1 : ℚ), (⟨some 0, some 0, some 0, some 0⟩ : PlayerRow))]
      ((runMatchNew
          ⟨some "secret", PlayersParam.array [⟨some 1, some 2, some 3⟩], some "1"⟩
          ⟨[], [], [((1 : ℚ), ⟨some 0, some 0, some 0, some 0⟩)], 0⟩
          (fun _ => false)).store.players) :=
  nonneg_balances_preserved
    ⟨some "secret", PlayersParam.array [⟨some 1, some 2, some 3⟩], some "1"⟩
    ⟨[], [], [((1 : ℚ), ⟨some 0, some 0, some 0, some 0⟩)], 0⟩
    [⟨some 1, some 2, some 3⟩] 1 rfl (by decide) (by decide)

/-- C7 (spec-modelled): a debit whose amount exceeds the balance always
fails with `InsufficientBalanceError` and leaves the store — in
particular that balance — unchanged. -/
theorem debit_insufficient_fails_unchanged (s : EconStore) (owner ctype : String)
    (amount : ℚ) (h : amount > getBalance s owner ctype) :
    debit s owner ctype amount = (some DebitError.insufficientBalance, s) := by
  rw [debit, if_pos h]

/-- Witness for C7: debiting 6 gems from a balance of 5. -/
theorem debit_insufficient_fails_unchanged_witness :
    debit ⟨fun _ => 5⟩ "alice" "gem" 6 =
      (some DebitError.insufficientBalance, ⟨fun _ => 5⟩) :=
  debit_insufficient_fails_unchanged _ _ _ _ (show (5 : ℚ) < 6 by norm_num)

theorem foldl_comma (ns : List Nat) :
    ∀ acc : String,
    ns.foldl (fun a b => a ++ toString b ++ ",") acc = acc ++ commaTail ns := by
  induction ns with
  | nil =>
    intro acc
    rw [List.foldl_nil, commaTail, String.append_empty]
  | cons n ns ih =>
    intro acc
    rw [List.foldl_cons, ih, commaTail]
    simp [String.append_assoc]

theorem commaTail_eq_commaJoin :
    ∀ ns : List Nat, ns ≠ [] →
    commaTail ns = commaJoin (ns.map toString) ++ "," := by
  intro ns
  induction ns with
  | nil => intro h; exact absurd rfl h
  | cons n ns ih =>
    intro _
    cases ns with
    | nil => rw [commaTail, commaTail, String.append_empty]; rfl
    | cons m ms =>
      rw [commaTail, ih (by simp)]
      simp [commaJoin, String.append_assoc]

theorem take_drop_last_comma (s : String) :
    (s ++ ",").take ((s ++ ",").length - 1) = s := by
  have hlen : (s ++ ",").length = s.data.length + 1 := by
    rw [String.length_append]; rfl
  apply String.ext
  rw [String.data_take, hlen, Nat.add_sub_cancel, String.data_append]
  have hcomma : ("," : String).data = [','] := rfl
  rw [hcomma]
  exact List.take_left s.data [',']

/-- C8: the match-list body is `no matches found` exactly on an empty
query result, and otherwise is the match ids joined by single commas in
result order with no trailing comma. -/
theorem match_list_body_comma_join (rows : List Nat) :
    matchListBody rows =
      if rows = [] then "no matches found"
      else commaJoin (rows.map toString) := by
  cases rows with
  | nil => rfl
  | cons n ns =>
    have hfold : (n :: ns).foldl (fun a b => a ++ toString b ++ ",") "" =
        commaJoin ((n :: ns).map toString) ++ "," := by
      rw [foldl_comma, commaTail_eq_commaJoin (n :: ns) (by simp), String.empty_append]
    rw [matchListBody, if_neg (by simp)]
    simp only [hfold]
    rw [take_drop_last_comma, if_neg (by simp)]

/-- C9 counterexample: the two player-id validators disagree on the
input `0`: `validateOnePlayerId` accepts it (`parseInt` gives `0`, which
is not negative) while the `validatePlayerId` middleware rejects it
(`0 ≤ 0`). -/
theorem id_validators_agree_counterexample :
    (validateOnePlayerId "0").isSome = true ∧
    validatePlayerIdAccepts "0" = false := by decide

/-- C9 (amended): the two player-id validators agree on an input exactly
when its `parseInt` value is not `0`; inputs parsing to `0` are the only
disagreement — accepted by `validateOnePlayerId`, rejected by the
`validatePlayerId` middleware. -/
theorem id_validators_agree_except_zero (s : String) :
    ((validateOnePlayerId s).isSome = validatePlayerIdAccepts s) ↔
      parseIntJS s ≠ some 0 := by
  rw [validateOnePlayerId, validatePlayerIdAccepts]
  cases h : parseIntJS s with
  | none => simp
  | some v =>
    simp only []
    by_cases hneg : v < 0
    · rw [if_pos hneg]
      have hle : decide (v ≤ 0) = true := decide_eq_true (le_of_lt hneg)
      simp [hle]
      omega
    · rw [if_neg hneg]
      by_cases h0 : v = 0
      · subst h0
        simp
      · have hle : decide (v ≤ 0) = false :=
          decide_eq_false (fun hle => h0 (le_antisymm hle (not_lt.1 hneg)))
        simp [hle, h0]

/-- C10: in an accepted failure-free `/match/new` invocation, entries
with id `-1` are skipped entirely — no `player_matches` insert and no
`players` update is issued for them — while the match row is inserted
and every other entry still gets its insert, its update, and its
`player_matches` row. -/
theorem minus_one_entries_skipped (req : MatchNewReq) (store : Store)
    (players : List PlayerEntry) (winner : Int)
    (hbind : bindMatchNew req = .ok (players, winner)) :
    (runMatchNew req store (fun _ => false)).response =
        Response.ok ("Match ID: " ++ toString store.nextMatchId) ∧
    (∀ m k d, Query.insertPlayerMatch (some (-1 : ℚ)) m k d ∉
        (runMatchNew req store (fun _ => false)).queries) ∧
    (∀ b k d, Query.updatePlayer b k d (some (-1 : ℚ)) ∉
        (runMatchNew req store (fun _ => false)).queries) ∧
    Query.insertMatch winner ∈ (runMatchNew req store (fun _ => false)).queries ∧
    (store.nextMatchId, winner) ∈
        (runMatchNew req store (fun _ => false)).store.«matches» ∧
    (∀ p ∈ players, p.id ≠ some (-1 : ℚ) →
      Query.insertPlayerMatch p.id store.nextMatchId p.kills p.deaths ∈
          (runMatchNew req store (fun _ => false)).queries ∧
      Query.updatePlayer (decide (p.id = some ((winner : Int) : ℚ)))
          p.kills p.deaths p.id ∈
          (runMatchNew req store (fun _ => false)).queries ∧
      (⟨p.id, store.nextMatchId, p.kills, p.deaths⟩ : PMRow) ∈
          (runMatchNew req store (fun _ => false)).store.playerMatches) := by
  rw [runMatchNew_noFail_eq req store players winner hbind]
  refine ⟨rfl, ?_, ?_, ?_, ?_, ?_⟩
  · intro m k d hmem
    rcases List.mem_cons.1 hmem with h | hmem1
    · exact Query.noConfusion h
    rcases List.mem_cons.1 hmem1 with h | hmem2
    · exact Query.noConfusion h
    rcases List.mem_append.1 hmem2 with hfm | hlast
    · obtain ⟨p, hp, hq⟩ := List.mem_flatMap.1 hfm
      rw [entryQueries] at hq
      by_cases hc : p.id = some ((-1 : ℚ))
      · rw [if_pos hc] at hq
        exact List.not_mem_nil _ hq
      · rw [if_neg hc] at hq
        rcases List.mem_cons.1 hq with hq | hq2
        · exact hc ((Query.insertPlayerMatch.inj hq).1).symm
        rcases List.mem_cons.1 hq2 with hq | hq3
        · exact Query.noConfusion hq
        · exact List.not_mem_nil _ hq3
    · rcases List.mem_cons.1 hlast with h | h
      · exact Query.noConfusion h
      · exact List.not_mem_nil _ h
  · intro b k d hmem
    rcases List.mem_cons.1 hmem with h | hmem1
    · exact Query.noConfusion h
    rcases List.mem_cons.1 hmem1 with h | hmem2
    · exact Query.noConfusion h
    rcases List.mem_append.1 hmem2 with hfm | hlast
    · obtain ⟨p, hp, hq⟩ := List.mem_flatMap.1 hfm
      rw [entryQueries] at hq
      by_cases hc : p.id = some ((-1 : ℚ))
      · rw [if_pos hc] at hq
        exact List.not_mem_nil _ hq
      · rw [if_neg hc] at hq
        rcases List.mem_cons.1 hq with hq | hq2
        · exact Query.noConfusion hq
        rcases List.mem_cons.1 hq2 with hq | hq3
        · exact hc ((Query.updatePlayer.inj hq).2.2.2).symm
        · exact List.not_mem_nil _ hq3
    · rcases List.mem_cons.1 hlast with h | h
      · exact Query.noConfusion h
      · exact List.not_mem_nil _ h
  · exact List.mem_cons_of_mem _ (List.mem_cons_self _ _)
  · rw [foldl_applyEntry_matchesTable]
    exact List.mem_append_right _ (List.mem_singleton.2 rfl)
  · intro p hp hid
    have hins : Query.insertPlayerMatch p.id store.nextMatchId p.kills p.deaths ∈
        players.flatMap (entryQueries store.nextMatchId winner) := by
      rw [List.mem_flatMap]
      exact ⟨p, hp, by rw [entryQueries, if_neg hid]; exact List.mem_cons_self _ _⟩
    have hupd : Query.updatePlayer (decide (p.id = some ((winner : Int) : ℚ)))
        p.kills p.deaths p.id ∈
        players.flatMap (entryQueries store.nextMatchId winner) := by
      rw [List.mem_flatMap]
      refine ⟨p, hp, ?_⟩
      rw [entryQueries, if_neg hid]
      exact List.mem_cons_of_mem _ (List.mem_cons_self _ _)
    refine ⟨?_, ?_, ?_⟩
    · exact List.mem_cons_of_mem _ (List.mem_cons_of_mem _
        (List.mem_append_left _ hins))
    · exact List.mem_cons_of_mem _ (List.mem_cons_of_mem _
        (List.mem_append_left _ hupd))
    · rw [foldl_applyEntry_playerMatches]
      refine List.mem_append_right _ ?_
      rw [List.mem_flatMap]
      exact ⟨p, hp, by rw [entryRows, if_neg hid]; exact List.mem_singleton.2 rfl⟩

/-- Witness for C10: one `-1` entry and one normal entry for player 2 —
the `-1` entry's would-be `player_matches` insert is not issued. -/
theorem minus_one_entries_skipped_witness :
    Query.insertPlayerMatch (some (-1 : ℚ)) 3 (some 4) (some 4) ∉
      (runMatchNew
        ⟨some "secret",
         PlayersParam.array [⟨some (-1), some 4, some 4⟩, ⟨some 2, some 1, some 0⟩],
         some "2"⟩
        ⟨[], [], [((2 : ℚ), ⟨some 0, some 0, some 0, some 0⟩)], 3⟩
        (fun _ => false)).queries :=
  (minus_one_entries_skipped
    ⟨some "secret",
     PlayersParam.array [⟨some (-1), some 4, some 4⟩, ⟨some 2, some 1, some 0⟩],
     some "2"⟩
    ⟨[], [], [((2 : ℚ), ⟨some 0, some 0, some 0, some 0⟩)], 3⟩
    [⟨some (-1), some 4, some 4⟩, ⟨some 2, some 1, some 0⟩] 2 rfl).2.1
    3 (some 4) (some 4)

end SciFiWeb
